import Mathlib

/-!
Verification development for the LinearRegressionAnalysis repository.

The statistics engine is shallowly embedded over exact rationals: every
JavaScript numeric expression of the source is translated literally, with
`number` values modelled as `ℚ` where the source can only produce finite
values, and as `JSNum` (finite / NaN / Infinity / -Infinity) where a
division or a propagation of its result can leave the finite range.
Division, multiplication, addition and subtraction on `JSNum` follow the
IEEE-754 special-value rules that JavaScript uses (0/0 = NaN, q/0 = ±Inf,
NaN propagates, Inf * 0 = NaN, Inf - Inf = NaN); rounding of finite values
is not modelled, which is harmless for the claims below since they are
stated up to a 4-decimal tolerance that exact rational arithmetic meets.
`Math.sqrt` is modelled by `Real.sqrt`; this is faithful whenever the
radicand is nonnegative, which is proved where it is relied on.
-/

namespace LinReg

/-- A data point, as in the `DataPoint` interface of the source
(`{ x: number, y: number }`). Inputs reaching the engine are finite
(the data-entry form rejects NaN), hence rational coordinates. -/
structure Point where
  x : ℚ
  y : ℚ
deriving DecidableEq, Repr

/-- A JavaScript number outcome: a finite value, NaN, or a signed
infinity. Used where the source can produce a non-finite value. -/
inductive JSNum where
  | fin (q : ℚ)
  | nan
  | inf
  | ninf
deriving DecidableEq, Repr

/-- JavaScript division of finite values: `0/0` is NaN, `q/0` for
nonzero `q` is a signed infinity, otherwise the exact quotient. -/
def jsDiv (a b : ℚ) : JSNum :=
  if b = 0 then
    if a = 0 then .nan else if 0 < a then .inf else .ninf
  else .fin (a / b)

/-- JavaScript multiplication on `JSNum` values (NaN propagates,
`Infinity * 0` is NaN, signs multiply). -/
def JSNum.mul : JSNum → JSNum → JSNum
  | .nan, _ => .nan
  | _, .nan => .nan
  | .fin a, .fin b => .fin (a * b)
  | .inf, .fin b => if b = 0 then .nan else if 0 < b then .inf else .ninf
  | .fin a, .inf => if a = 0 then .nan else if 0 < a then .inf else .ninf
  | .ninf, .fin b => if b = 0 then .nan else if 0 < b then .ninf else .inf
  | .fin a, .ninf => if a = 0 then .nan else if 0 < a then .ninf else .inf
  | .inf, .inf => .inf
  | .inf, .ninf => .ninf
  | .ninf, .inf => .ninf
  | .ninf, .ninf => .inf

/-- JavaScript addition on `JSNum` values (NaN propagates,
`Infinity + (-Infinity)` is NaN). -/
def JSNum.add : JSNum → JSNum → JSNum
  | .nan, _ => .nan
  | _, .nan => .nan
  | .fin a, .fin b => .fin (a + b)
  | .inf, .ninf => .nan
  | .ninf, .inf => .nan
  | .inf, _ => .inf
  | _, .inf => .inf
  | .ninf, _ => .ninf
  | _, .ninf => .ninf

/-- JavaScript subtraction on `JSNum` values (NaN propagates,
`Infinity - Infinity` is NaN). -/
def JSNum.sub : JSNum → JSNum → JSNum
  | .nan, _ => .nan
  | _, .nan => .nan
  | .fin a, .fin b => .fin (a - b)
  | .inf, .inf => .nan
  | .ninf, .ninf => .nan
  | .inf, _ => .inf
  | .ninf, _ => .ninf
  | .fin _, .inf => .ninf
  | .fin _, .ninf => .inf

/-- `data.reduce((acc, point) => acc + point.x, 0)` of the source. -/
def sumX (data : List Point) : ℚ :=
  data.foldl (fun acc p => acc + p.x) 0

/-- `data.reduce((acc, point) => acc + point.y, 0)` of the source. -/
def sumY (data : List Point) : ℚ :=
  data.foldl (fun acc p => acc + p.y) 0

/-- `data.reduce((acc, point) => acc + point.x * point.y, 0)`. -/
def sumXY (data : List Point) : ℚ :=
  data.foldl (fun acc p => acc + p.x * p.y) 0

/-- `data.reduce((acc, point) => acc + point.x * point.x, 0)`. -/
def sumXX (data : List Point) : ℚ :=
  data.foldl (fun acc p => acc + p.x * p.x) 0

/-- `data.reduce((acc, point) => acc + point.y * point.y, 0)`
(only the chat context computes this sum). -/
def sumYY (data : List Point) : ℚ :=
  data.foldl (fun acc p => acc + p.y * p.y) 0

/-- `sumX / n` as computed wherever the source needs the x mean. -/
def meanXQ (data : List Point) : ℚ :=
  sumX data / (data.length : ℚ)

/-- `sumY / n` as computed wherever the source needs the y mean. -/
def meanYQ (data : List Point) : ℚ :=
  sumY data / (data.length : ℚ)

/-- `sumXX - (sumX * sumX) / n`, the SXX quantity of the source. -/
def sxxQ (data : List Point) : ℚ :=
  sumXX data - sumX data * sumX data / (data.length : ℚ)

/-- `sumXY - (sumX * sumY) / n`, the SCP quantity of the source. -/
def scpQ (data : List Point) : ℚ :=
  sumXY data - sumX data * sumY data / (data.length : ℚ)

/-- The slope `scp / sxx` as a rational (meaningful when `sxxQ ≠ 0`;
the engine embedding below uses `jsDiv` to keep the NaN case). -/
def slopeQ (data : List Point) : ℚ :=
  scpQ data / sxxQ data

/-- The intercept `meanY - slope * meanX` as a rational. -/
def interceptQ (data : List Point) : ℚ :=
  meanYQ data - slopeQ data * meanXQ data

/-- The record returned by `calculateStats` in `RegressionCalculations`.
The `r2` field of the source record is produced by the external npm
package `regression` (`regression.linear(points).r2`), whose code is not
part of this repository; that field is therefore not modelled here. -/
structure Stats where
  sxx : ℚ
  scp : ℚ
  slope : JSNum
  intercept : JSNum
  n : ℕ
  sumX : ℚ
  sumY : ℚ
  sumXY : ℚ
  meanX : ℚ
  meanY : ℚ
deriving DecidableEq, Repr

/-- `calculateStats` of `RegressionCalculations`: returns `null`
(modelled as `none`) when fewer than 2 points are present, otherwise the
record of sums, means, SXX, SCP, slope and intercept, with the divisions
that can produce NaN or Infinity carried out in `JSNum`. -/
def calculateStats (data : List Point) : Option Stats :=
  if data.length < 2 then none
  else
    let n : ℚ := (data.length : ℚ)
    let sX := sumX data
    let sY := sumY data
    let sXY := sumXY data
    let sXX := sumXX data
    let meanX := sX / n
    let meanY := sY / n
    let sxx := sXX - sX * sX / n
    let scp := sXY - sX * sY / n
    let slope := jsDiv scp sxx
    let intercept := JSNum.sub (.fin meanY) (JSNum.mul slope (.fin meanX))
    some ⟨sxx, scp, slope, intercept, data.length, sX, sY, sXY, meanX, meanY⟩

/-- The slope computed inline by the table body of `App`
(`const slope = scp / sxx;` with no `n < 2` guard), in `JSNum` so the
NaN produced at zero SXX is visible. -/
def tableSlope (data : List Point) : JSNum :=
  jsDiv (scpQ data) (sxxQ data)

/-- The intercept computed inline by the table body of `App`
(`const intercept = meanY - slope * meanX;`). -/
def tableIntercept (data : List Point) : JSNum :=
  JSNum.sub (.fin (meanYQ data)) (JSNum.mul (tableSlope data) (.fin (meanXQ data)))

/-- The predicted value `yPredicted = slope * point.x + intercept`
shown in the ŷ column of the table body of `App`, for a given row. -/
def tableRowPredicted (data : List Point) (p : Point) : JSNum :=
  JSNum.add (JSNum.mul (tableSlope data) (.fin p.x)) (tableIntercept data)

/-- The residual `point.y - yPredicted` shown in the table body. -/
def tableRowResidual (data : List Point) (p : Point) : JSNum :=
  JSNum.sub (.fin p.y) (tableRowPredicted data p)

/-- The whole ŷ column of the table body, in row order. -/
def predictedList (data : List Point) : List JSNum :=
  data.map (tableRowPredicted data)

/-- The SSres sum of the table footer of `App`: for each point the
footer recomputes slope and intercept from the whole dataset and adds
the squared residual. Stated over `ℚ`; faithful whenever `sxxQ ≠ 0`
(otherwise the footer displays NaN). -/
def ssres (data : List Point) : ℚ :=
  data.foldl (fun sum p => sum + (p.y - (slopeQ data * p.x + interceptQ data)) ^ 2) 0

/-- The SStot sum of the table footer of `App`:
`sum + yDiff * yDiff` with `yDiff = point.y - meanY`. -/
def sstot (data : List Point) : ℚ :=
  data.foldl (fun sum p => sum + (p.y - meanYQ data) ^ 2) 0

/-- R² from the footer sums by the formula of the spec, §4.1 step 7:
`1 - SSres / SStot`. The displayed R² number itself comes from the
external `regression` library; this definition combines the two sums
the footer does compute using the canonical formula. -/
def r2Formula (data : List Point) : ℚ :=
  1 - ssres data / sstot data

/-- The sum of squared residuals of an arbitrary candidate line
`y = a * x + b` over the dataset, accumulated like the footer sum. -/
def ssresLine (data : List Point) (a b : ℚ) : ℚ :=
  data.foldl (fun sum p => sum + (p.y - (a * p.x + b)) ^ 2) 0

/-- Numerator of the correlation coefficient in `generateDataContext`
of `GemmaChatbot`: `n * sumXY - sumX * sumY`. -/
def corrNum (data : List Point) : ℚ :=
  (data.length : ℚ) * sumXY data - sumX data * sumY data

/-- Radicand of the correlation denominator in `generateDataContext`:
`(n * sumXX - sumX * sumX) * (n * sumYY - sumY * sumY)`. -/
def corrDenSq (data : List Point) : ℚ :=
  ((data.length : ℚ) * sumXX data - sumX data * sumX data) *
    ((data.length : ℚ) * sumYY data - sumY data * sumY data)

/-- The chat slope: `const slope = sxx !== 0 ? scp / sxx : 0;`. -/
def chatSlope (data : List Point) : JSNum :=
  if sxxQ data ≠ 0 then jsDiv (scpQ data) (sxxQ data) else .fin 0

/-- The chat intercept: `const intercept = meanY - slope * meanX;`. -/
def chatIntercept (data : List Point) : JSNum :=
  JSNum.sub (.fin (meanYQ data)) (JSNum.mul (chatSlope data) (.fin (meanXQ data)))

/-- The numbers interpolated into the context string built by
`generateDataContext` of `GemmaChatbot` (both the main component and
the worker-backed variant contain the same function verbatim). The
string template itself is fixed; only these numbers vary. -/
structure ChatContext where
  n : ℕ
  meanX : ℚ
  meanY : ℚ
  slope : JSNum
  intercept : JSNum
  correlation : ℝ

/-- `generateDataContext` of `GemmaChatbot`: for an empty dataset the
fixed string `No data points have been entered yet.` is returned,
modelled as `none`; otherwise the record of interpolated numbers.
`Math.sqrt` is modelled by `Real.sqrt`, faithful because the radicand
`corrDenSq` is nonnegative (proved below); the source guard
`denominator !== 0` compares the square root itself with 0. -/
noncomputable def generateDataContext (data : List Point) : Option ChatContext :=
  if data.length = 0 then none
  else
    let d : ℝ := Real.sqrt ((corrDenSq data : ℚ) : ℝ)
    some
      { n := data.length
        meanX := meanXQ data
        meanY := meanYQ data
        slope := chatSlope data
        intercept := chatIntercept data
        correlation := if d ≠ 0 then ((corrNum data : ℚ) : ℝ) / d else 0 }

/-- Result of `parseFloat` on a form field: `none` stands for NaN,
`some q` for a finite parsed number (every non-NaN value the form can
produce is finite). -/
abbrev ParsedField := Option ℚ

/-- `handleSubmit` of `DataInput`: the point passed to `onDataAdd`,
or `none` when the NaN guard `!isNaN(xNum) && !isNaN(yNum)` fails and
`onDataAdd` is not invoked. -/
def handleSubmit (xNum yNum : ParsedField) : Option Point :=
  match xNum, yNum with
  | some a, some b => some ⟨a, b⟩
  | _, _ => none

/-- `handleYKeyDown` of `DataInput`: fires only on the Enter key, then
applies the same NaN guard before `onDataAdd`. -/
def handleYKeyDown (key : String) (xNum yNum : ParsedField) : Option Point :=
  if key = "Enter" then
    match xNum, yNum with
    | some a, some b => some ⟨a, b⟩
    | _, _ => none
  else none

/-- The known fixture of the spec, §8. -/
def fixtureC2 : List Point := [⟨1, 2⟩, ⟨2, 4⟩, ⟨3, 5⟩, ⟨4, 4⟩, ⟨5, 5⟩]

/-! ### Bridging lemmas between the accumulator form and map sums -/

lemma foldl_add_map (f : Point → ℚ) :
    ∀ (l : List Point) (c : ℚ), l.foldl (fun acc p => acc + f p) c = c + (l.map f).sum
  | [], c => by simp
  | p :: t, c => by
    rw [List.foldl_cons, foldl_add_map f t (c + f p), List.map_cons, List.sum_cons]
    ring

lemma sumX_eq (data : List Point) : sumX data = (data.map fun p => p.x).sum := by
  simpa [sumX] using foldl_add_map (fun p => p.x) data 0

lemma sumY_eq (data : List Point) : sumY data = (data.map fun p => p.y).sum := by
  simpa [sumY] using foldl_add_map (fun p => p.y) data 0

lemma sumXY_eq (data : List Point) : sumXY data = (data.map fun p => p.x * p.y).sum := by
  simpa [sumXY] using foldl_add_map (fun p => p.x * p.y) data 0

lemma sumXX_eq (data : List Point) : sumXX data = (data.map fun p => p.x ^ 2).sum := by
  simpa [sumXX, pow_two] using foldl_add_map (fun p => p.x * p.x) data 0

lemma sumYY_eq (data : List Point) : sumYY data = (data.map fun p => p.y ^ 2).sum := by
  simpa [sumYY, pow_two] using foldl_add_map (fun p => p.y * p.y) data 0

lemma ssresLine_eq (data : List Point) (a b : ℚ) :
    ssresLine data a b = (data.map fun p => (p.y - (a * p.x + b)) ^ 2).sum := by
  simpa [ssresLine] using foldl_add_map (fun p => (p.y - (a * p.x + b)) ^ 2) data 0

lemma ssres_eq_ssresLine (data : List Point) :
    ssres data = ssresLine data (slopeQ data) (interceptQ data) := rfl

lemma sstot_eq (data : List Point) :
    sstot data = (data.map fun p => (p.y - meanYQ data) ^ 2).sum := by
  simpa [sstot] using foldl_add_map (fun p => (p.y - meanYQ data) ^ 2) data 0

/-! ### Nonnegativity and Cauchy-Schwarz facts -/

lemma mapSum_sq_nonneg (l : List Point) (f : Point → ℚ) :
    0 ≤ (l.map fun p => f p ^ 2).sum := by
  induction l with
  | nil => simp
  | cons p t ih =>
    rw [List.map_cons, List.sum_cons]
    have := sq_nonneg (f p)
    linarith

lemma sq_sum_le_length_mul_sum_sq :
    ∀ l : List ℚ, l.sum ^ 2 ≤ (l.length : ℚ) * (l.map fun a => a ^ 2).sum := by
  intro l
  induction l with
  | nil => simp
  | cons a t ih =>
    rcases eq_or_ne t [] with rfl | ht
    · simp
    · have hn : (0 : ℚ) < (t.length : ℚ) := by
        have : 0 < t.length := List.length_pos.mpr ht
        positivity
      have hmul := mul_le_mul_of_nonneg_left ih hn.le
      rw [List.sum_cons, List.map_cons, List.sum_cons, List.length_cons]
      push_cast
      nlinarith [sq_nonneg ((t.length : ℚ) * a - t.sum), ih, hmul, hn]

lemma nxx_nonneg (data : List Point) :
    0 ≤ (data.length : ℚ) * sumXX data - sumX data * sumX data := by
  have h := sq_sum_le_length_mul_sum_sq (data.map fun p => p.x)
  rw [List.map_map, List.length_map] at h
  have hc : ((fun a : ℚ => a ^ 2) ∘ fun p : Point => p.x) = fun p : Point => p.x ^ 2 := rfl
  rw [hc] at h
  rw [sumX_eq, sumXX_eq]
  nlinarith [h]

lemma nyy_nonneg (data : List Point) :
    0 ≤ (data.length : ℚ) * sumYY data - sumY data * sumY data := by
  have h := sq_sum_le_length_mul_sum_sq (data.map fun p => p.y)
  rw [List.map_map, List.length_map] at h
  have hc : ((fun a : ℚ => a ^ 2) ∘ fun p : Point => p.y) = fun p : Point => p.y ^ 2 := rfl
  rw [hc] at h
  rw [sumY_eq, sumYY_eq]
  nlinarith [h]

lemma corrDenSq_nonneg (data : List Point) : 0 ≤ corrDenSq data :=
  mul_nonneg (nxx_nonneg data) (nyy_nonneg data)

/-! ### The OLS residual identities -/

lemma sum_affine (l : List Point) (s i : ℚ) :
    (l.map fun p => p.y - (s * p.x + i)).sum
      = (l.map fun p => p.y).sum - s * (l.map fun p => p.x).sum - (l.length : ℚ) * i := by
  induction l with
  | nil => simp
  | cons p t ih =>
    rw [List.map_cons, List.sum_cons, ih, List.map_cons, List.sum_cons, List.map_cons,
      List.sum_cons, List.length_cons]
    push_cast
    ring

lemma sum_affine_x (l : List Point) (s i : ℚ) :
    (l.map fun p => p.x * (p.y - (s * p.x + i))).sum
      = (l.map fun p => p.x * p.y).sum - s * (l.map fun p => p.x ^ 2).sum
        - i * (l.map fun p => p.x).sum := by
  induction l with
  | nil => simp
  | cons p t ih =>
    rw [List.map_cons, List.sum_cons, ih, List.map_cons, List.sum_cons, List.map_cons,
      List.sum_cons, List.map_cons, List.sum_cons]
    ring

lemma length_ne_zero_q (data : List Point) (h2 : 1 ≤ data.length) :
    ((data.length : ℚ)) ≠ 0 := by
  have : 0 < data.length := h2
  positivity

lemma sum_resid_zero (data : List Point) (h2 : 1 ≤ data.length) :
    (data.map fun p => p.y - (slopeQ data * p.x + interceptQ data)).sum = 0 := by
  have hn := length_ne_zero_q data h2
  rw [sum_affine, interceptQ, meanXQ, meanYQ, ← sumX_eq, ← sumY_eq]
  field_simp

lemma sum_x_resid_zero (data : List Point) (h2 : 1 ≤ data.length)
    (hx : sxxQ data ≠ 0) :
    (data.map fun p => p.x * (p.y - (slopeQ data * p.x + interceptQ data))).sum = 0 := by
  have hn := length_ne_zero_q data h2
  have hs : slopeQ data * sxxQ data = scpQ data := by
    rw [slopeQ, div_mul_cancel₀ _ hx]
  rw [sum_affine_x, ← sumXY_eq, ← sumXX_eq, ← sumX_eq, interceptQ, meanXQ, meanYQ]
  rw [sxxQ, scpQ] at hs
  field_simp at hs ⊢
  linarith [hs]

lemma ssresLine_decomp (l : List Point) (s i a b : ℚ) :
    (l.map fun p => (p.y - (a * p.x + b)) ^ 2).sum
      = (l.map fun p => (p.y - (s * p.x + i)) ^ 2).sum
        + 2 * ((s - a) * (l.map fun p => p.x * (p.y - (s * p.x + i))).sum
          + (i - b) * (l.map fun p => p.y - (s * p.x + i)).sum)
        + (l.map fun p => ((s - a) * p.x + (i - b)) ^ 2).sum := by
  induction l with
  | nil => simp
  | cons p t ih =>
    simp only [List.map_cons, List.sum_cons]
    linear_combination ih

/-! ### Permutation invariance of the sums -/

lemma mapSum_perm {data data' : List Point} (h : data.Perm data') (f : Point → ℚ) :
    (data.map f).sum = (data'.map f).sum :=
  (h.map f).sum_eq

lemma sumX_perm {data data' : List Point} (h : data.Perm data') : sumX data = sumX data' := by
  rw [sumX_eq, sumX_eq]; exact mapSum_perm h _

lemma sumY_perm {data data' : List Point} (h : data.Perm data') : sumY data = sumY data' := by
  rw [sumY_eq, sumY_eq]; exact mapSum_perm h _

lemma sumXY_perm {data data' : List Point} (h : data.Perm data') : sumXY data = sumXY data' := by
  rw [sumXY_eq, sumXY_eq]; exact mapSum_perm h _

lemma sumXX_perm {data data' : List Point} (h : data.Perm data') : sumXX data = sumXX data' := by
  rw [sumXX_eq, sumXX_eq]; exact mapSum_perm h _

lemma sxxQ_perm {data data' : List Point} (h : data.Perm data') : sxxQ data = sxxQ data' := by
  rw [sxxQ, sxxQ, sumXX_perm h, sumX_perm h, h.length_eq]

lemma scpQ_perm {data data' : List Point} (h : data.Perm data') : scpQ data = scpQ data' := by
  rw [scpQ, scpQ, sumXY_perm h, sumX_perm h, sumY_perm h, h.length_eq]

lemma meanXQ_perm {data data' : List Point} (h : data.Perm data') : meanXQ data = meanXQ data' := by
  rw [meanXQ, meanXQ, sumX_perm h, h.length_eq]

lemma meanYQ_perm {data data' : List Point} (h : data.Perm data') : meanYQ data = meanYQ data' := by
  rw [meanYQ, meanYQ, sumY_perm h, h.length_eq]

lemma slopeQ_perm {data data' : List Point} (h : data.Perm data') : slopeQ data = slopeQ data' := by
  rw [slopeQ, slopeQ, scpQ_perm h, sxxQ_perm h]

lemma interceptQ_perm {data data' : List Point} (h : data.Perm data') :
    interceptQ data = interceptQ data' := by
  rw [interceptQ, interceptQ, slopeQ_perm h, meanXQ_perm h, meanYQ_perm h]

/-! ### Datasets whose x values are all equal -/

lemma mapSum_allEq {data : List Point} (f : Point → ℚ) (v : ℚ)
    (hf : ∀ p ∈ data, f p = v) : (data.map f).sum = (data.length : ℚ) * v := by
  induction data with
  | nil => simp
  | cons p t ih =>
    rw [List.map_cons, List.sum_cons, hf p (by simp),
      ih fun q hq => hf q (by simp [hq]), List.length_cons]
    push_cast
    ring

lemma mapSum_mul_of_eq {data : List Point} (f g : Point → ℚ) (c : ℚ)
    (hf : ∀ p ∈ data, f p = c * g p) : (data.map f).sum = c * (data.map g).sum := by
  induction data with
  | nil => simp
  | cons p t ih =>
    rw [List.map_cons, List.sum_cons, hf p (by simp),
      ih fun q hq => hf q (by simp [hq]), List.map_cons, List.sum_cons]
    ring

lemma sxxQ_allEq {data : List Point} {c : ℚ} (h2 : 1 ≤ data.length)
    (hx : ∀ p ∈ data, p.x = c) : sxxQ data = 0 := by
  have hn := length_ne_zero_q data h2
  have hX : sumX data = (data.length : ℚ) * c := by
    rw [sumX_eq]; exact mapSum_allEq _ _ hx
  have hXX : sumXX data = (data.length : ℚ) * c ^ 2 := by
    rw [sumXX_eq]; exact mapSum_allEq _ _ fun p hp => by rw [hx p hp]
  rw [sxxQ, hX, hXX]
  field_simp
  ring

lemma scpQ_allEq {data : List Point} {c : ℚ} (h2 : 1 ≤ data.length)
    (hx : ∀ p ∈ data, p.x = c) : scpQ data = 0 := by
  have hn := length_ne_zero_q data h2
  have hX : sumX data = (data.length : ℚ) * c := by
    rw [sumX_eq]; exact mapSum_allEq _ _ hx
  have hXY : sumXY data = c * sumY data := by
    rw [sumXY_eq, sumY_eq]
    exact mapSum_mul_of_eq _ _ _ fun p hp => by rw [hx p hp]
  rw [scpQ, hX, hXY]
  field_simp
  ring

/-! ### Shape of the engine results -/

lemma calculateStats_eq (data : List Point) (h2 : 2 ≤ data.length) :
    calculateStats data = some
      ⟨sxxQ data, scpQ data, jsDiv (scpQ data) (sxxQ data),
        JSNum.sub (.fin (meanYQ data))
          (JSNum.mul (jsDiv (scpQ data) (sxxQ data)) (.fin (meanXQ data))),
        data.length, sumX data, sumY data, sumXY data, meanXQ data, meanYQ data⟩ := by
  unfold calculateStats
  rw [if_neg (by omega)]
  rfl

lemma calculateStats_fin (data : List Point) (h2 : 2 ≤ data.length)
    (hx : sxxQ data ≠ 0) :
    calculateStats data = some
      ⟨sxxQ data, scpQ data, .fin (slopeQ data), .fin (interceptQ data),
        data.length, sumX data, sumY data, sumXY data, meanXQ data, meanYQ data⟩ := by
  have hj : jsDiv (scpQ data) (sxxQ data) = .fin (slopeQ data) := by
    simp [jsDiv, hx, slopeQ]
  rw [calculateStats_eq data h2, hj]
  simp [JSNum.mul, JSNum.sub, interceptQ]

lemma generateDataContext_eq (data : List Point) (h1 : 1 ≤ data.length) :
    generateDataContext data = some
      { n := data.length, meanX := meanXQ data, meanY := meanYQ data,
        slope := chatSlope data, intercept := chatIntercept data,
        correlation := if Real.sqrt ((corrDenSq data : ℝ)) ≠ 0
          then ((corrNum data : ℝ)) / Real.sqrt ((corrDenSq data : ℝ)) else 0 } := by
  unfold generateDataContext
  rw [if_neg (by omega)]

lemma chatSlope_fin (data : List Point) : ∃ q, chatSlope data = JSNum.fin q := by
  by_cases hx : sxxQ data = 0
  · exact ⟨0, by simp [chatSlope, hx]⟩
  · exact ⟨slopeQ data, by simp [chatSlope, hx, jsDiv, slopeQ]⟩

/-! ### Claims -/

/-- C1, counterexample: on the dataset [(2,1),(2,5)] (all x equal, so
SXX = 0) `calculateStats` does not signal a degenerate-regression
sentinel: it returns an ordinary non-null record whose slope and
intercept are NaN, which flows into the displayed statistics. -/
theorem claim1_counterexample :
    ∃ s, calculateStats [⟨2, 1⟩, ⟨2, 5⟩] = some s ∧
      s.slope = JSNum.nan ∧ s.intercept = JSNum.nan := by
  refine ⟨⟨0, 0, .nan, .nan, 2, 4, 6, 12, 2, 3⟩, ?_, rfl, rfl⟩
  norm_num [calculateStats, sumX, sumY, sumXY, sumXX, jsDiv, JSNum.mul, JSNum.sub]

/-- C1, amended: for every dataset with n ≥ 2 whose x values are all
equal (SXX = 0), `calculateStats` returns a non-null record whose slope
and intercept are NaN (0/0 silently propagated into the displayed
statistics), and the chat context instead falls back to slope 0; no
degenerate-regression sentinel exists anywhere. -/
theorem claim1_amended (data : List Point) (c : ℚ) (h2 : 2 ≤ data.length)
    (hx : ∀ p ∈ data, p.x = c) :
    (∃ s, calculateStats data = some s ∧
      s.slope = JSNum.nan ∧ s.intercept = JSNum.nan) ∧
    (∃ ctx, generateDataContext data = some ctx ∧ ctx.slope = JSNum.fin 0) := by
  have h1 : 1 ≤ data.length := by omega
  have hsxx := sxxQ_allEq h1 hx
  have hscp := scpQ_allEq h1 hx
  constructor
  · refine ⟨_, calculateStats_eq data h2, ?_, ?_⟩
    · show jsDiv (scpQ data) (sxxQ data) = JSNum.nan
      simp [jsDiv, hsxx, hscp]
    · show JSNum.sub _ (JSNum.mul (jsDiv (scpQ data) (sxxQ data)) _) = JSNum.nan
      simp [jsDiv, hsxx, hscp, JSNum.mul, JSNum.sub]
  · refine ⟨_, generateDataContext_eq data h1, ?_⟩
    show chatSlope data = JSNum.fin 0
    simp [chatSlope, hsxx]

/-- C1 witness: the amended statement at the concrete dataset
[(2,1),(2,5)]. -/
theorem claim1_witness :
    (∃ s, calculateStats [⟨2, 1⟩, ⟨2, 5⟩] = some s ∧
      s.slope = JSNum.nan ∧ s.intercept = JSNum.nan) ∧
    (∃ ctx, generateDataContext [⟨2, 1⟩, ⟨2, 5⟩] = some ctx ∧
      ctx.slope = JSNum.fin 0) :=
  claim1_amended [⟨2, 1⟩, ⟨2, 5⟩] 2 (by decide) (by decide)

/-- C2, counterexample: on the fixture the engine computes SCP = 6,
slope = 0.6 and intercept = 2.2, refuting the claimed SCP = 9,
slope = 0.9 and intercept = 1.3. -/
theorem claim2_counterexample :
    ∃ s, calculateStats fixtureC2 = some s ∧
      s.scp = 6 ∧ s.scp ≠ 9 ∧
      s.slope = JSNum.fin (3 / 5) ∧ s.slope ≠ JSNum.fin (9 / 10) ∧
      s.intercept = JSNum.fin (11 / 5) ∧ s.intercept ≠ JSNum.fin (13 / 10) := by
  refine ⟨⟨10, 6, .fin (3 / 5), .fin (11 / 5), 5, 15, 20, 66, 3, 4⟩, ?_, rfl,
    by norm_num, rfl, by simp only [ne_eq, JSNum.fin.injEq]; norm_num, rfl,
    by simp only [ne_eq, JSNum.fin.injEq]; norm_num⟩
  norm_num [calculateStats, fixtureC2, sumX, sumY, sumXY, sumXX, jsDiv,
    JSNum.mul, JSNum.sub]

/-- C2, amended: on the fixture {(1,2),(2,4),(3,5),(4,4),(5,5)} the
engine computes meanX = 3, meanY = 4, SXX = 10, SCP = 6, slope = 0.6,
intercept = 2.2, predicted values [2.8, 3.4, 4.0, 4.6, 5.2],
SSres = 2.4, SStot = 6 and R² = 0.6 exactly (hence to 4 decimal
places). -/
theorem claim2_amended :
    calculateStats fixtureC2 = some
      ⟨10, 6, .fin (3 / 5), .fin (11 / 5), 5, 15, 20, 66, 3, 4⟩ ∧
    predictedList fixtureC2 =
      [.fin (14 / 5), .fin (17 / 5), .fin 4, .fin (23 / 5), .fin (26 / 5)] ∧
    ssres fixtureC2 = 12 / 5 ∧ sstot fixtureC2 = 6 ∧ r2Formula fixtureC2 = 3 / 5 := by
  refine ⟨?_, ?_, ?_, ?_, ?_⟩
  · norm_num [calculateStats, fixtureC2, sumX, sumY, sumXY, sumXX, jsDiv,
      JSNum.mul, JSNum.sub]
  · norm_num [predictedList, tableRowPredicted, tableSlope, tableIntercept,
      fixtureC2, scpQ, sxxQ, meanXQ, meanYQ, sumX, sumY, sumXY, sumXX, jsDiv,
      JSNum.mul, JSNum.add, JSNum.sub]
  · norm_num [ssres, fixtureC2, slopeQ, interceptQ, scpQ, sxxQ, meanXQ, meanYQ,
      sumX, sumY, sumXY, sumXX]
  · norm_num [sstot, fixtureC2, meanYQ, sumY]
  · norm_num [r2Formula, ssres, sstot, fixtureC2, slopeQ, interceptQ, scpQ,
      sxxQ, meanXQ, meanYQ, sumX, sumY, sumXY, sumXX]

/-- C4, counterexample: the table body of `App` is a consumer that does
not go through the `n < 2` guard; on a single data point its inline
recomputation divides by zero and the displayed predicted value and
residual are NaN. -/
theorem claim4_counterexample :
    tableRowPredicted [⟨1, 1⟩] ⟨1, 1⟩ = JSNum.nan ∧
    tableRowResidual [⟨1, 1⟩] ⟨1, 1⟩ = JSNum.nan := by
  norm_num [tableRowPredicted, tableRowResidual, tableSlope, tableIntercept,
    jsDiv, JSNum.mul, JSNum.add, JSNum.sub, scpQ, sxxQ, meanXQ, meanYQ,
    sumX, sumY, sumXY, sumXX]

/-- C4, amended: `calculateStats` returns the `null` sentinel for every
dataset with fewer than 2 points (in particular for the empty dataset
and for any single point), but not every consumer goes through it: the
table body recomputes the statistics inline without the guard and on
any single point produces NaN predicted and residual values. -/
theorem claim4_amended :
    (∀ data : List Point, data.length < 2 → calculateStats data = none) ∧
    (∀ p : Point, tableRowPredicted [p] p = JSNum.nan ∧
      tableRowResidual [p] p = JSNum.nan) := by
  constructor
  · intro data h
    unfold calculateStats
    rw [if_pos h]
  · intro p
    have hsxx : sxxQ [p] = 0 := @sxxQ_allEq [p] p.x (by simp) (by simp)
    have hscp : scpQ [p] = 0 := @scpQ_allEq [p] p.x (by simp) (by simp)
    constructor
    · show JSNum.add (JSNum.mul (tableSlope [p]) _) _ = JSNum.nan
      simp [tableSlope, tableIntercept, jsDiv, hsxx, hscp, JSNum.mul,
        JSNum.add, JSNum.sub]
    · show JSNum.sub _ (tableRowPredicted [p] p) = JSNum.nan
      simp [tableRowPredicted, tableSlope, tableIntercept, jsDiv, hsxx, hscp,
        JSNum.mul, JSNum.add, JSNum.sub]

/-- C4 witness: the amended statement at the empty dataset and at the
single point (1,1). -/
theorem claim4_witness :
    calculateStats ([] : List Point) = none ∧
    calculateStats [(⟨1, 1⟩ : Point)] = none ∧
    tableRowPredicted [(⟨1, 1⟩ : Point)] ⟨1, 1⟩ = JSNum.nan :=
  ⟨claim4_amended.1 [] (by decide), claim4_amended.1 [⟨1, 1⟩] (by decide),
    (claim4_amended.2 ⟨1, 1⟩).1⟩

/-- C5: for every dataset with n ≥ 2 and SXX ≠ 0 the engine slope equals
(sumXY - sumX·sumY/n) / (sumXX - sumX²/n) and the intercept equals
meanY - slope·meanX, with all sums the left-to-right accumulations of
the source; the chat context computes the same slope and intercept. -/
theorem claim5 (data : List Point) (h2 : 2 ≤ data.length) (hx : sxxQ data ≠ 0) :
    ∃ s, calculateStats data = some s ∧
      s.slope = JSNum.fin ((sumXY data - sumX data * sumY data / (data.length : ℚ)) /
        (sumXX data - sumX data * sumX data / (data.length : ℚ))) ∧
      s.intercept = JSNum.fin (meanYQ data - slopeQ data * meanXQ data) ∧
      chatSlope data = s.slope ∧ chatIntercept data = s.intercept := by
  refine ⟨_, calculateStats_fin data h2 hx, ?_, rfl, ?_, ?_⟩
  · show JSNum.fin (slopeQ data) = _
    rw [slopeQ, scpQ, sxxQ]
  · show chatSlope data = JSNum.fin (slopeQ data)
    simp [chatSlope, hx, jsDiv, slopeQ]
  · show chatIntercept data = JSNum.fin (interceptQ data)
    rw [chatIntercept]
    have hcs : chatSlope data = JSNum.fin (slopeQ data) := by
      simp [chatSlope, hx, jsDiv, slopeQ]
    rw [hcs]
    rfl

/-- C5 witness: the statement at the dataset [(0,0),(1,1)]. -/
theorem claim5_witness :
    2 ≤ ([(⟨0, 0⟩ : Point), ⟨1, 1⟩] : List Point).length ∧
    sxxQ [(⟨0, 0⟩ : Point), ⟨1, 1⟩] ≠ 0 ∧
    ∃ s, calculateStats [(⟨0, 0⟩ : Point), ⟨1, 1⟩] = some s ∧
      s.slope = JSNum.fin ((sumXY [(⟨0, 0⟩ : Point), ⟨1, 1⟩] -
          sumX [(⟨0, 0⟩ : Point), ⟨1, 1⟩] * sumY [(⟨0, 0⟩ : Point), ⟨1, 1⟩] /
            (([(⟨0, 0⟩ : Point), ⟨1, 1⟩] : List Point).length : ℚ)) /
        (sumXX [(⟨0, 0⟩ : Point), ⟨1, 1⟩] -
          sumX [(⟨0, 0⟩ : Point), ⟨1, 1⟩] * sumX [(⟨0, 0⟩ : Point), ⟨1, 1⟩] /
            (([(⟨0, 0⟩ : Point), ⟨1, 1⟩] : List Point).length : ℚ))) ∧
      s.intercept = JSNum.fin (meanYQ [(⟨0, 0⟩ : Point), ⟨1, 1⟩] -
        slopeQ [(⟨0, 0⟩ : Point), ⟨1, 1⟩] * meanXQ [(⟨0, 0⟩ : Point), ⟨1, 1⟩]) ∧
      chatSlope [(⟨0, 0⟩ : Point), ⟨1, 1⟩] = s.slope ∧
      chatIntercept [(⟨0, 0⟩ : Point), ⟨1, 1⟩] = s.intercept :=
  ⟨by decide, by norm_num [sxxQ, sumXX, sumX],
    claim5 [⟨0, 0⟩, ⟨1, 1⟩] (by decide) (by norm_num [sxxQ, sumXX, sumX])⟩

/-- C6, counterexample: on the dataset [(2,1),(2,5)] the correlation
denominator is 0, yet the chat context is produced with the numeric
value 0 for the correlation (printed as 0.000), not an undefined
signal. -/
theorem claim6_counterexample :
    ∃ ctx, generateDataContext [⟨2, 1⟩, ⟨2, 5⟩] = some ctx ∧
      ctx.correlation = 0 ∧ ctx.n = 2 := by
  refine ⟨_, generateDataContext_eq [⟨2, 1⟩, ⟨2, 5⟩] (by decide), ?_, rfl⟩
  have hd : corrDenSq [(⟨2, 1⟩ : Point), ⟨2, 5⟩] = 0 := by
    norm_num [corrDenSq, sumXX, sumYY, sumX, sumY]
  show (if Real.sqrt ((corrDenSq [(⟨2, 1⟩ : Point), ⟨2, 5⟩] : ℝ)) ≠ 0
    then _ else (0 : ℝ)) = 0
  rw [hd]
  simp

/-- C6, amended: for every dataset with n ≥ 1 the chat correlation
equals (n·sumXY - sumX·sumY) / sqrt((n·sumXX - sumX²)(n·sumYY - sumY²))
when the denominator is nonzero, and silently falls back to the numeric
value 0 (not an undefined signal) when the denominator is 0. -/
theorem claim6_amended (data : List Point) (h1 : 1 ≤ data.length) :
    ∃ ctx, generateDataContext data = some ctx ∧
      (corrDenSq data ≠ 0 →
        ctx.correlation = ((corrNum data : ℝ)) / Real.sqrt ((corrDenSq data : ℝ))) ∧
      (corrDenSq data = 0 → ctx.correlation = 0) := by
  refine ⟨_, generateDataContext_eq data h1, ?_, ?_⟩
  · intro hne
    have hpos : (0 : ℚ) < corrDenSq data :=
      lt_of_le_of_ne (corrDenSq_nonneg data) (Ne.symm hne)
    have hposR : (0 : ℝ) < ((corrDenSq data : ℝ)) := by exact_mod_cast hpos
    have hs : Real.sqrt ((corrDenSq data : ℝ)) ≠ 0 :=
      ne_of_gt (Real.sqrt_pos.mpr hposR)
    show (if Real.sqrt ((corrDenSq data : ℝ)) ≠ 0 then _ else (0 : ℝ)) = _
    rw [if_pos hs]
  · intro h0
    show (if Real.sqrt ((corrDenSq data : ℝ)) ≠ 0 then _ else (0 : ℝ)) = 0
    rw [h0]
    simp

/-- C6 witness: the amended statement at the dataset [(0,0),(1,1)]. -/
theorem claim6_witness :
    1 ≤ ([(⟨0, 0⟩ : Point), ⟨1, 1⟩] : List Point).length ∧
    ∃ ctx, generateDataContext [(⟨0, 0⟩ : Point), ⟨1, 1⟩] = some ctx ∧
      (corrDenSq [(⟨0, 0⟩ : Point), ⟨1, 1⟩] ≠ 0 →
        ctx.correlation = ((corrNum [(⟨0, 0⟩ : Point), ⟨1, 1⟩] : ℝ)) /
          Real.sqrt ((corrDenSq [(⟨0, 0⟩ : Point), ⟨1, 1⟩] : ℝ))) ∧
      (corrDenSq [(⟨0, 0⟩ : Point), ⟨1, 1⟩] = 0 → ctx.correlation = 0) :=
  ⟨by decide, claim6_amended [⟨0, 0⟩, ⟨1, 1⟩] (by decide)⟩

/-- C7: permuting a dataset with n ≥ 2 and SXX ≠ 0 changes neither the
engine result (slope, intercept and every other field) nor the R² of
the footer formulas; over exact rationals the equality is exact. -/
theorem claim7 (data data' : List Point) (hperm : data.Perm data')
    (h2 : 2 ≤ data.length) (_hx : sxxQ data ≠ 0) :
    calculateStats data = calculateStats data' ∧
    r2Formula data = r2Formula data' := by
  have h2' : 2 ≤ data'.length := hperm.length_eq ▸ h2
  constructor
  · rw [calculateStats_eq data h2, calculateStats_eq data' h2', sxxQ_perm hperm,
      scpQ_perm hperm, meanXQ_perm hperm, meanYQ_perm hperm, sumX_perm hperm,
      sumY_perm hperm, sumXY_perm hperm, hperm.length_eq]
  · have hres : ssres data = ssres data' := by
      rw [ssres_eq_ssresLine, ssres_eq_ssresLine, ssresLine_eq, ssresLine_eq,
        slopeQ_perm hperm, interceptQ_perm hperm]
      exact mapSum_perm hperm _
    have htot : sstot data = sstot data' := by
      rw [sstot_eq, sstot_eq, meanYQ_perm hperm]
      exact mapSum_perm hperm _
    rw [r2Formula, r2Formula, hres, htot]

/-- C7 witness: the statement at [(0,0),(1,1)] and its swap. -/
theorem claim7_witness :
    calculateStats [(⟨0, 0⟩ : Point), ⟨1, 1⟩] =
      calculateStats [(⟨1, 1⟩ : Point), ⟨0, 0⟩] ∧
    r2Formula [(⟨0, 0⟩ : Point), ⟨1, 1⟩] = r2Formula [(⟨1, 1⟩ : Point), ⟨0, 0⟩] :=
  claim7 [⟨0, 0⟩, ⟨1, 1⟩] [⟨1, 1⟩, ⟨0, 0⟩]
    (List.Perm.swap (⟨1, 1⟩ : Point) (⟨0, 0⟩ : Point) [])
    (by decide) (by norm_num [sxxQ, sumXX, sumX])

/-- C8: for every dataset with n ≥ 2 and SXX ≠ 0 and every candidate
line y = a·x + b, the fitted slope and intercept returned by the engine
minimize the sum of squared residuals (OLS optimality). -/
theorem claim8 (data : List Point) (a b : ℚ) (h2 : 2 ≤ data.length)
    (hx : sxxQ data ≠ 0) :
    ∃ s, calculateStats data = some s ∧
      s.slope = JSNum.fin (slopeQ data) ∧
      s.intercept = JSNum.fin (interceptQ data) ∧
      ssresLine data (slopeQ data) (interceptQ data) ≤ ssresLine data a b := by
  refine ⟨_, calculateStats_fin data h2 hx, rfl, rfl, ?_⟩
  have h1 : 1 ≤ data.length := by omega
  rw [ssresLine_eq, ssresLine_eq]
  have hdec := ssresLine_decomp data (slopeQ data) (interceptQ data) a b
  rw [sum_resid_zero data h1, sum_x_resid_zero data h1 hx] at hdec
  have hsq := mapSum_sq_nonneg data
    (fun p => (slopeQ data - a) * p.x + (interceptQ data - b))
  simp only [mul_zero, add_zero, zero_add] at hdec
  linarith [hdec, hsq]

/-- C8 witness: the statement at [(0,0),(1,1)] against the line y = 0. -/
theorem claim8_witness :
    2 ≤ ([(⟨0, 0⟩ : Point), ⟨1, 1⟩] : List Point).length ∧
    sxxQ [(⟨0, 0⟩ : Point), ⟨1, 1⟩] ≠ 0 ∧
    ∃ s, calculateStats [(⟨0, 0⟩ : Point), ⟨1, 1⟩] = some s ∧
      s.slope = JSNum.fin (slopeQ [(⟨0, 0⟩ : Point), ⟨1, 1⟩]) ∧
      s.intercept = JSNum.fin (interceptQ [(⟨0, 0⟩ : Point), ⟨1, 1⟩]) ∧
      ssresLine [(⟨0, 0⟩ : Point), ⟨1, 1⟩]
          (slopeQ [(⟨0, 0⟩ : Point), ⟨1, 1⟩])
          (interceptQ [(⟨0, 0⟩ : Point), ⟨1, 1⟩]) ≤
        ssresLine [(⟨0, 0⟩ : Point), ⟨1, 1⟩] 0 0 :=
  ⟨by decide, by norm_num [sxxQ, sumXX, sumX],
    claim8 [⟨0, 0⟩, ⟨1, 1⟩] 0 0 (by decide) (by norm_num [sxxQ, sumXX, sumX])⟩

/-- C9: whenever parseFloat of the x field or of the y field yields NaN
(modelled as `none`), neither `handleSubmit` nor `handleYKeyDown`
invokes `onDataAdd`, so no NaN coordinate reaches the dataset. -/
theorem claim9 (xv yv : ParsedField) (k : String)
    (h : xv = none ∨ yv = none) :
    handleSubmit xv yv = none ∧ handleYKeyDown k xv yv = none := by
  refine ⟨?_, ?_⟩
  · rcases h with h | h <;> subst h
    · cases yv <;> rfl
    · cases xv <;> rfl
  · unfold handleYKeyDown
    split
    · rcases h with h | h <;> subst h
      · cases yv <;> rfl
      · cases xv <;> rfl
    · rfl

/-- C9 witness: a NaN x field with a well-formed y field is rejected by
both entry paths. -/
theorem claim9_witness :
    handleSubmit none (some 1) = none ∧
    handleYKeyDown "Enter" none (some 1) = none :=
  claim9 none (some 1) "Enter" (Or.inl rfl)

/-- C10: `generateDataContext` is total and never emits NaN or
Infinity: the empty dataset yields the fixed no-data message (modelled
as `none`), and otherwise the slope and intercept are finite (the SXX=0
division is guarded by a fallback to 0) and the correlation radicand is
nonnegative, so the guarded square-root division is well defined. -/
theorem claim10 :
    generateDataContext ([] : List Point) = none ∧
    ∀ data : List Point, 1 ≤ data.length →
      ∃ ctx, generateDataContext data = some ctx ∧
        (∃ q, ctx.slope = JSNum.fin q) ∧
        (∃ q, ctx.intercept = JSNum.fin q) ∧
        0 ≤ corrDenSq data := by
  constructor
  · rfl
  · intro data h1
    obtain ⟨q, hq⟩ := chatSlope_fin data
    refine ⟨_, generateDataContext_eq data h1, ⟨q, hq⟩,
      ⟨meanYQ data - q * meanXQ data, ?_⟩, corrDenSq_nonneg data⟩
    show chatIntercept data = _
    rw [chatIntercept, hq]
    rfl

/-- C10 witness: the statement at the empty dataset and at the single
point (1,1). -/
theorem claim10_witness :
    generateDataContext ([] : List Point) = none ∧
    ∃ ctx, generateDataContext [(⟨1, 1⟩ : Point)] = some ctx ∧
      (∃ q, ctx.slope = JSNum.fin q) ∧
      (∃ q, ctx.intercept = JSNum.fin q) ∧
      0 ≤ corrDenSq [(⟨1, 1⟩ : Point)] :=
  ⟨claim10.1, claim10.2 [⟨1, 1⟩] (by decide)⟩

end LinReg
